import Mathlib

/-!
Shallow embedding of `src/hotcold.py` (binance-hotcold).

The program scans trading symbols, fetches candle windows, classifies each
symbol as booster / loser / neutral and ranks the top N per category.

Modelling conventions:
* Python floats are modelled by `ℚ` (no claim here depends on rounding).
* Network fetch results are passed in as `Option (List Candle)` parameters
  (`none` models a failed `fetch_json`); the candle list carries the fields
  the code reads (index 2 = high, 3 = low, 4 = close).
* Python exceptions swallowed by the `try/except` in `analyze_symbol` /
  `analyze_symbol_simple` (ZeroDivisionError, ValueError from
  `parse_timeframe`, max/min over an empty sequence, indexing into an empty
  list) are modelled by returning `none` at the corresponding point.
* Python's stable `sorted` is modelled by `List.insertionSort` with a
  reflexive total relation on the sort key: both are stable sorts, hence
  produce identical output.
-/

namespace HotCold

/-- One OHLC candle; the code reads index 2 (high), 3 (low) and 4 (close). -/
structure Candle where
  high : ℚ
  low : ℚ
  close : ℚ
  deriving DecidableEq, Repr

/-- Embeds the dataclass `SymbolAnalysisResult` of `hotcold.py`. -/
structure SymbolAnalysisResult where
  category : String
  symbol : String
  change_percent : ℚ
  change_percent_big_interval : ℚ
  marks : List String
  price : ℚ
  deriving DecidableEq, Repr

/-- Embeds `argparse.Namespace` as configured by the `__main__` block.
The source fields `big_avg_ratio` / `short_avg_ratio` are renamed to
`big_avg_frac` / `short_avg_frac`. -/
structure Args where
  current_interval : String
  short_interval : String
  big_interval : String
  simple : Bool
  watch : Bool
  no_spikes : Bool
  spike_threshold : ℚ
  count : ℕ
  big_avg_frac : ℚ
  short_avg_frac : ℚ
  deriving DecidableEq, Repr

/-- Python `int()` on a rational: truncation toward zero. -/
def pyInt (q : ℚ) : ℤ :=
  q.num / (q.den : ℤ)

/-- Python `sorted` on rationals, ascending. -/
def sortQAsc (l : List ℚ) : List ℚ :=
  List.insertionSort (fun a b => a ≤ b) l

/-- Python `sorted(, reverse=True)` on rationals, descending. -/
def sortQDesc (l : List ℚ) : List ℚ :=
  List.insertionSort (fun a b => b ≤ a) l

/-- `statistics.mean` (the call sites pass a non-empty list). -/
def meanQ (l : List ℚ) : ℚ :=
  l.sum / (l.length : ℚ)

/-- `statistics.median`: middle element of the sorted list for odd length,
average of the two middle elements for even length.  The call site in
`analyze_symbol` always passes a non-empty list, so the `[]` case (a
`StatisticsError` in Python) is unreachable there. -/
def median (l : List ℚ) : ℚ :=
  let s := sortQAsc l
  let n := s.length
  if n = 0 then 0
  else if n % 2 = 1 then s.getD (n / 2) 0
  else (s.getD (n / 2 - 1) 0 + s.getD (n / 2) 0) / 2

/-- Embeds `calculate_avg_max` (lines 95-99): mean of the `top_x` largest
high values, where `top_x = max(int(len * frac), 1)`. -/
def calculate_avg_max (candles : List Candle) (frac_to_pick : ℚ) : ℚ :=
  let top_x := max (pyInt ((candles.length : ℚ) * frac_to_pick)).toNat 1
  let max_values := candles.map (fun c => c.high)
  let top_max := (sortQDesc max_values).take top_x
  if top_max.isEmpty then 0 else top_max.sum / (top_max.length : ℚ)

/-- Embeds `calculate_avg_min` (lines 107-111): mean of the `bottom_x`
smallest low values. -/
def calculate_avg_min (candles : List Candle) (frac_to_pick : ℚ) : ℚ :=
  let bottom_x := max (pyInt ((candles.length : ℚ) * frac_to_pick)).toNat 1
  let min_values := candles.map (fun c => c.low)
  let bottom_min := (sortQAsc min_values).take bottom_x
  if bottom_min.isEmpty then 0 else bottom_min.sum / (bottom_min.length : ℚ)

/-- Embeds `trimmed_median` (lines 102-104): drop `int(len*trim/100)`
samples from each tail of the sorted list (Python slice
`[trim_count : -trim_count or None]`), then take the median. -/
def trimmed_median (prices : List ℚ) (trim_percent : ℚ) : ℚ :=
  let trim_count := (pyInt ((prices.length : ℚ) * trim_percent / 100)).toNat
  let s := sortQAsc prices
  let trimmed := if trim_count = 0 then s else (s.drop trim_count).take (s.length - 2 * trim_count)
  median trimmed

/-- Python `max(float(candle[2]) for candle in l)`; the call sites guard
against the empty list (which raises `ValueError` in Python). -/
def maxHighs (l : List Candle) : ℚ :=
  match l with
  | [] => 0
  | c :: t => t.foldl (fun a d => max a d.high) c.high

/-- Python `min(float(candle[3]) for candle in l)`. -/
def minLows (l : List Candle) : ℚ :=
  match l with
  | [] => 0
  | c :: t => t.foldl (fun a d => min a d.low) c.low

/-- Value of a run of decimal digit characters. -/
def digitsToNat (cs : List Char) : ℕ :=
  cs.foldl (fun n c => 10 * n + (c.toNat - 48)) 0

/-- Embeds `parse_timeframe` (lines 49-55): the regex
`^(\d+)([mhd])$` with multipliers m = 1, h = 60, d = 1440; `none` models
the raised `ValueError` on a non-matching string. -/
def parse_timeframe (timeframe : String) : Option ℕ :=
  let cs := timeframe.data
  match cs.getLast? with
  | none => none
  | some u =>
    let ds := cs.dropLast
    if ds ≠ [] ∧ ds.all Char.isDigit then
      if u = 'm' then some (digitsToNat ds * 1)
      else if u = 'h' then some (digitsToNat ds * 60)
      else if u = 'd' then some (digitsToNat ds * 1440)
      else none
    else none

/-- Embeds `get_small_interval` (lines 58-67). -/
def get_small_interval (timeframe : String) : Option String :=
  (parse_timeframe timeframe).map fun total_minutes =>
    if total_minutes ≤ 60 then "1m"
    else if total_minutes ≤ 240 then "15m"
    else if total_minutes ≤ 1440 then "1h"
    else "4h"

/-- Embeds `calculate_required_candles` (lines 70-73):
`max(total // candle + 1, 1)`; `none` models a `ValueError` from either
parse or the `ZeroDivisionError` when the candle interval is `0` minutes. -/
def calculate_required_candles (total_time candle_interval : String) : Option ℕ :=
  match parse_timeframe total_time, parse_timeframe candle_interval with
  | some t, some c => if c = 0 then none else some (max (t / c + 1) 1)
  | _, _ => none

/-- The base resolution, in minutes, that `get_small_interval` assigns to
a duration of `total_minutes` minutes (1m, 15m, 1h and 4h respectively). -/
def resolution_minutes (total_minutes : ℕ) : ℕ :=
  if total_minutes ≤ 60 then 1
  else if total_minutes ≤ 240 then 15
  else if total_minutes ≤ 1440 then 60
  else 240

/-- Python `str.strip` with argument a single character: remove every
leading and trailing occurrence of that character. -/
def stripChar (ch : Char) (cs : List Char) : List Char :=
  ((cs.dropWhile (fun c => c = ch)).reverse.dropWhile (fun c => c = ch)).reverse

/-- Removal of trailing occurrences of a character only — this is the
operation the specification describes for the percent sign, to be compared
with the two-sided `stripChar` the code performs. -/
def stripTrailingChar (ch : Char) (cs : List Char) : List Char :=
  (cs.reverse.dropWhile (fun c => c = ch)).reverse

/-- Remove leading and trailing whitespace (Python `float` ignores it). -/
def trimWs (cs : List Char) : List Char :=
  ((cs.dropWhile Char.isWhitespace).reverse.dropWhile Char.isWhitespace).reverse

/-- Model of Python `float()` on plain decimal literals: optional
surrounding whitespace, optional sign, then digits with at most one decimal
point and at least one digit overall (`"5"`, `"5."`, `".5"`, `"-3.25"`).
Exponent notation, `inf` / `nan` and digit underscores are outside the
model; every string the development evaluates concretely is decided
identically by Python `float()`. -/
def pyFloat (cs : List Char) : Option ℚ :=
  let t := trimWs cs
  let signed : ℚ × List Char :=
    match t with
    | '+' :: rest => (1, rest)
    | '-' :: rest => (-1, rest)
    | _ => (1, t)
  let intPart := signed.2.takeWhile Char.isDigit
  let rest := signed.2.dropWhile Char.isDigit
  match rest with
  | [] =>
    if intPart.isEmpty then none
    else some (signed.1 * (digitsToNat intPart : ℚ))
  | '.' :: fracPart =>
    if fracPart.all Char.isDigit ∧ (intPart ≠ [] ∨ fracPart ≠ []) then
      some (signed.1 * ((digitsToNat intPart : ℚ) +
        (digitsToNat fracPart : ℚ) / ((10 : ℚ) ^ fracPart.length)))
    else none
  | _ => none

/-- Embeds `parse_percentage` (lines 41-46): `float(pct_str.strip('%'))`,
falling back to `2.0` when `float` raises `ValueError`. -/
def parse_percentage (pct_str : String) : ℚ :=
  match pyFloat (stripChar '%' pct_str.data) with
  | some v => v
  | none => 2

/-- Embeds the `__main__` configuration block (lines 450-485): positional
interval strings with sentinel defaults `"2d"` / `"4d"`, auto-enabling of
simple mode when neither short nor big interval was given, the spike
threshold parsed through `parse_percentage`, and the fixed `0.5` average
fractions.  The block performs no duration-string validation: it is a total
function into `Args`. -/
def build_config (cur : String) (short_arg big_arg : Option String)
    (simple watch no_spikes : Bool) (spike_str : String) (count : ℕ) : Args :=
  let is_simple_mode := short_arg.isNone && big_arg.isNone
  { current_interval := cur
    short_interval := short_arg.getD "2d"
    big_interval := big_arg.getD "4d"
    simple := simple || is_simple_mode
    watch := watch
    no_spikes := no_spikes
    spike_threshold := parse_percentage spike_str
    count := count
    big_avg_frac := 1/2
    short_avg_frac := 1/2 }

/-- The "No spikes check" of `analyze_symbol` (lines 227-234): `none`
models the `ZeroDivisionError` when the trimmed median is zero, otherwise
`some is_valid`. -/
def spike_check (args : Args) (big_data short_data : List Candle) : Option Bool :=
  if args.no_spikes then
    let big_median := trimmed_median (big_data.map (fun c => c.close)) 5
    if big_median = 0 then none
    else
      let short_close_avg := meanQ (short_data.map (fun c => c.close))
      some (decide (|(short_close_avg - big_median) / big_median| < args.spike_threshold / 100))
  else some true

/-- The marks computation of `analyze_symbol` (lines 246-248): tag the
symbol when the short (resp. big) window alone satisfies its max or min
condition. -/
def signal_marks (short_sat big_sat : Bool) : List String :=
  (if short_sat then ["›"] else []) ++ (if big_sat then ["»"] else [])

/-- The booster / loser / neutral decision of `analyze_symbol`
(lines 236-283), reached when the spike check passed.  `none` models a
`ZeroDivisionError` from one of the percentage computations. -/
def classify_dual (symbol : String) (args : Args)
    (big_data short_data current_data : List Candle) :
    Option SymbolAnalysisResult :=
  let big_max_avg := calculate_avg_max big_data args.big_avg_frac
  let short_max_avg := calculate_avg_max short_data args.short_avg_frac
  let current_max := maxHighs current_data
  let big_min_avg := calculate_avg_min big_data args.big_avg_frac
  let short_min_avg := calculate_avg_min short_data args.short_avg_frac
  let current_min := minLows current_data
  let is_big_interval_satisfied_by_max := decide (current_max > big_max_avg)
    let is_short_interval_satisfied_by_max := decide (current_max > short_max_avg)
    let is_big_interval_satisfied_by_min := decide (current_min < big_min_avg)
    let is_short_interval_satisfied_by_min := decide (current_min < short_min_avg)
    let marks : List String :=
      signal_marks
        (is_short_interval_satisfied_by_max || is_short_interval_satisfied_by_min)
        (is_big_interval_satisfied_by_max || is_big_interval_satisfied_by_min)
    if is_short_interval_satisfied_by_max && is_big_interval_satisfied_by_max then
      if short_max_avg = 0 then none
      else if big_max_avg = 0 then none
      else some
        { category := "booster"
          symbol := symbol
          change_percent := (current_max - short_max_avg) / short_max_avg * 100
          change_percent_big_interval := (current_max - big_max_avg) / big_max_avg * 100
          marks := marks
          price := current_max }
    else if is_short_interval_satisfied_by_min && is_big_interval_satisfied_by_min then
      if short_min_avg = 0 then none
      else if big_min_avg = 0 then none
      else some
        { category := "loser"
          symbol := symbol
          change_percent := (current_min - short_min_avg) / short_min_avg * 100
          change_percent_big_interval := (current_min - big_min_avg) / big_min_avg * 100
          marks := marks
          price := current_min }
    else
      if short_max_avg = 0 then none
      else if short_min_avg = 0 then none
      else
        let change_percent_up := (current_max - short_max_avg) / short_max_avg * 100
        let change_percent_down := (current_min - short_min_avg) / short_min_avg * 100
        if |change_percent_up| ≥ |change_percent_down| then
          if big_max_avg = 0 then none
          else some
            { category := "neutral"
              symbol := symbol
              change_percent := change_percent_up
              change_percent_big_interval := (current_max - big_max_avg) / big_max_avg * 100
              marks := marks
              price := current_max }
        else
          if big_min_avg = 0 then none
          else some
            { category := "neutral"
              symbol := symbol
              change_percent := change_percent_down
              change_percent_big_interval := (current_min - big_min_avg) / big_min_avg * 100
              marks := marks
              price := current_min }

/-- Classification body of `analyze_symbol` (lines 217-283), reached once
all three fetches returned non-empty data: averages and extrema, the spike
check, then the booster / loser / neutral decision. -/
def analyze_core (symbol : String) (args : Args)
    (big_data short_data current_data : List Candle) :
    Option SymbolAnalysisResult :=
  match spike_check args big_data short_data with
  | none => none
  | some false => none
  | some true => classify_dual symbol args big_data short_data current_data

/-- Embeds `analyze_symbol` (lines 178-285).  The three `fetch_json`
results are supplied as parameters; the function first resolves the three
intervals and candle counts (a `ValueError` from `parse_timeframe` is
caught by the `try/except` and yields `none`), then applies the Python
truthiness test `not (big_data and short_data and current_data)` and runs
the classification body. -/
def analyze_symbol (symbol : String) (args : Args)
    (big_data short_data current_data : Option (List Candle)) :
    Option SymbolAnalysisResult :=
  match get_small_interval args.big_interval, get_small_interval args.short_interval,
        get_small_interval args.current_interval with
  | some big_small_interval, some short_small_interval, some current_small_interval =>
    match calculate_required_candles args.big_interval big_small_interval,
          calculate_required_candles args.short_interval short_small_interval,
          calculate_required_candles args.current_interval current_small_interval with
    | some _, some _, some _ =>
      match big_data, short_data, current_data with
      | some bigD, some shortD, some curD =>
        if bigD.isEmpty || shortD.isEmpty || curD.isEmpty then none
        else analyze_core symbol args bigD shortD curD
      | _, _, _ => none
    | _, _, _ => none
  | _, _, _ => none

/-- Embeds `analyze_symbol_simple` (lines 114-175): single window, last
candle close as current price, prior candles as reference window with the
length-10 fallback from the 0.2-fraction averages to plain max/min. -/
def analyze_symbol_simple (symbol : String) (args : Args)
    (current_data : Option (List Candle)) : Option SymbolAnalysisResult :=
  match get_small_interval args.current_interval with
  | none => none
  | some current_small_interval =>
    match calculate_required_candles args.current_interval current_small_interval with
    | none => none
    | some _ =>
      match current_data with
      | none => none
      | some l =>
        match l.getLast? with
        | none => none
        | some current_data_last =>
          let prior := l.dropLast
          let current_price := current_data_last.close
          if prior.isEmpty then none
          else
            let current_max :=
              if prior.length ≥ 10 then calculate_avg_max prior (2/10) else maxHighs prior
            let current_min :=
              if prior.length ≥ 10 then calculate_avg_min prior (2/10) else minLows prior
            if current_price > current_max then
              if current_max = 0 then none
              else some
                { category := "booster"
                  symbol := symbol
                  change_percent := (current_price - current_max) / current_max * 100
                  change_percent_big_interval := 0
                  marks := []
                  price := current_price }
            else if current_price < current_min then
              if current_min = 0 then none
              else some
                { category := "loser"
                  symbol := symbol
                  change_percent := (current_price - current_min) / current_min * 100
                  change_percent_big_interval := 0
                  marks := []
                  price := current_price }
            else
              if current_max = 0 then none
              else some
                { category := "neutral"
                  symbol := symbol
                  change_percent := (current_price - current_max) / current_max * 100
                  change_percent_big_interval := 0
                  marks := []
                  price := current_price }

/-- Python `sorted(l, key=lambda x: x.change_percent)` (stable, ascending). -/
def sortResAsc (l : List SymbolAnalysisResult) : List SymbolAnalysisResult :=
  List.insertionSort (fun a b => a.change_percent ≤ b.change_percent) l

/-- Python `sorted(l, key=lambda x: x.change_percent, reverse=True)`
(stable, descending). -/
def sortResDesc (l : List SymbolAnalysisResult) : List SymbolAnalysisResult :=
  List.insertionSort (fun a b => b.change_percent ≤ a.change_percent) l

/-- Embeds the per-pass ranking of `main` (lines 400-436): partition by
category, top-N boosters by descending change with fill-up from positive
neutrals, top-N losers by ascending change with fill-up from negative
neutrals, both truncated to N, concatenated and sorted descending. -/
def rank_select (results : List SymbolAnalysisResult) (top_count : ℕ) :
    List SymbolAnalysisResult :=
  let boosters := results.filter (fun r => r.category == "booster")
  let losers := results.filter (fun r => r.category == "loser")
  let neutrals := results.filter (fun r => r.category == "neutral")
  let boosters_sorted := sortResDesc boosters
  let boosters_sorted :=
    if boosters_sorted.length < top_count then
      let positive_neutrals := neutrals.filter (fun r => r.change_percent > 0)
      let positive_neutrals_sorted := sortResDesc positive_neutrals
      boosters_sorted ++ positive_neutrals_sorted.take (top_count - boosters_sorted.length)
    else boosters_sorted.take top_count
  let losers_sorted := sortResAsc losers
  let losers_sorted :=
    if losers_sorted.length < top_count then
      let negative_neutrals := neutrals.filter (fun r => r.change_percent < 0)
      let negative_neutrals_sorted := sortResAsc negative_neutrals
      losers_sorted ++ negative_neutrals_sorted.take (top_count - losers_sorted.length)
    else losers_sorted.take top_count
  let boosters_sorted := boosters_sorted.take top_count
  let losers_sorted := losers_sorted.take top_count
  sortResDesc (boosters_sorted ++ losers_sorted)

/-! Concrete instances used by witnesses and counterexamples. -/

/-- Dual-window configuration `8h 2d 4d` with spike rejection disabled. -/
def cfgPlain : Args :=
  build_config "8h" (some "2d") (some "4d") false false false "5%" 5

/-- Dual-window configuration `8h 2d 4d --no-spikes --spike-threshold 5%`. -/
def cfgSpike : Args :=
  build_config "8h" (some "2d") (some "4d") false false true "5%" 5

/-- Configuration whose current interval `"xx"` does not match the
duration grammar. -/
def cfgBadDuration : Args :=
  build_config "xx" (some "2d") (some "4d") false false false "5%" 5

/-- Big window for the booster example: both highs 95, lows 90. -/
def bigBoost : List Candle := [⟨95, 90, 95⟩, ⟨95, 90, 95⟩]

/-- Short window for the booster example: both highs 100, lows 95. -/
def shortBoost : List Candle := [⟨100, 95, 100⟩, ⟨100, 95, 100⟩]

/-- Current window for the booster example: one candle, high 110. -/
def curBoost : List Candle := [⟨110, 105, 110⟩]

/-- Result of the booster example: `current_max = 110` against
`short_max_avg = 100` and `big_max_avg = 95`. -/
def resBoost : SymbolAnalysisResult :=
  { category := "booster", symbol := "X", change_percent := 10,
    change_percent_big_interval := 300/19, marks := ["›", "»"], price := 110 }

/-- Big window giving `big_max_avg = 95`, `big_min_avg = 95`. -/
def bigOverlap : List Candle := [⟨95, 95, 95⟩, ⟨95, 95, 95⟩]

/-- Short window giving `short_max_avg = 100`, `short_min_avg = 100`. -/
def shortOverlap : List Candle := [⟨100, 100, 100⟩, ⟨100, 100, 100⟩]

/-- Wide current candle satisfying the booster and loser conditions at
once: high 200 above both max averages, low 10 below both min averages. -/
def curOverlap : List Candle := [⟨200, 10, 150⟩]

/-- Result of the overlap example: classified booster by branch order. -/
def resOverlap : SymbolAnalysisResult :=
  { category := "booster", symbol := "X", change_percent := 100,
    change_percent_big_interval := 2100/19, marks := ["›", "»"], price := 200 }

/-- Short window for the mixed example: `short_max_avg = 100`,
`short_min_avg = 95`. -/
def shortMixed : List Candle := [⟨100, 95, 100⟩, ⟨100, 95, 100⟩]

/-- Big window for the mixed example: `big_max_avg = 85`,
`big_min_avg = 80`. -/
def bigMixed : List Candle := [⟨85, 80, 85⟩, ⟨85, 80, 85⟩]

/-- Current window for the mixed example: `current_max = current_min = 90`,
so each condition holds for exactly one of the two windows. -/
def curMixed : List Candle := [⟨90, 90, 90⟩]

/-- Result of the mixed example: neutral, reporting the up-move `-10`
because `|-10| ≥ |-100/19|`. -/
def resMixed : SymbolAnalysisResult :=
  { category := "neutral", symbol := "X", change_percent := -10,
    change_percent_big_interval := 100/17, marks := ["›", "»"], price := 90 }

/-- Big window whose closes give `trimmed_median = 100`. -/
def bigSpike : List Candle := [⟨100, 100, 100⟩, ⟨100, 100, 100⟩]

/-- Short window whose closes average 106: deviation 6% from 100. -/
def shortSpike6 : List Candle := [⟨106, 106, 106⟩]

/-- Short window whose closes average 105: deviation exactly 5% from 100. -/
def shortSpike5 : List Candle := [⟨105, 105, 105⟩]

/-- Big window for the short-window fallback example: `big_max_avg = 90`. -/
def bigFrac : List Candle := [⟨90, 1, 90⟩]

/-- Four-candle short window (length below 10): highs 100, 90, 1, 1, so
the 0.5-fraction average of the top two highs is 95 while the plain
maximum is 100. -/
def shortFrac : List Candle := [⟨100, 1, 100⟩, ⟨90, 1, 90⟩, ⟨1, 1, 1⟩, ⟨1, 1, 1⟩]

/-- Current window for the fallback example: high 110. -/
def curFrac : List Candle := [⟨110, 100, 105⟩]

/-- Result of the fallback example: booster with change percent computed
from the fractional average 95, not from the plain maximum 100. -/
def resFrac : SymbolAnalysisResult :=
  { category := "booster", symbol := "X", change_percent := 300/19,
    change_percent_big_interval := 200/9, marks := ["›", "»"], price := 110 }

/-- A benign single-candle window: every fetch of it succeeds. -/
def goodWindow : List Candle := [⟨100, 90, 95⟩]

/-- Three-candle window for the simple-mode fallback witness: the prior
window has length 2 (below 10), plain maximum 105, plain minimum 90; the
last close 120 exceeds the plain maximum. -/
def simpleWin : List Candle := [⟨100, 90, 95⟩, ⟨105, 95, 96⟩, ⟨200, 100, 120⟩]

/-- Result of the simple-mode fallback witness. -/
def resSimple : SymbolAnalysisResult :=
  { category := "booster", symbol := "X", change_percent := 100/7,
    change_percent_big_interval := 0, marks := [], price := 120 }

/-- Observable shape of one run of `main`. -/
inductive RunOutcome where
  /-- `main` printed "No available symbols for analysis." and returned. -/
  | noSymbolsExit
  /-- one pass was rendered and the function returned (`not args.watch`). -/
  | singlePass
  /-- the `while True` loop keeps rendering passes and sleeping. -/
  | watchForever
  deriving DecidableEq, Repr

/-- Control-flow skeleton of `main` (lines 360-447) with the per-pass body
abstracted away.  `listings` supplies the result of each potential call to
`get_usdt_symbols`; the pair records the outcome together with how many
universe listings the run consumes.  In the source the universe is fetched
exactly once, on line 371, before the `while True` loop; an empty result
returns from `main` immediately, in watch mode as well. -/
def main_control (listings : ℕ → List String) (watch : Bool) :
    RunOutcome × ℕ :=
  let symbols := listings 0
  if symbols.isEmpty then (RunOutcome.noSymbolsExit, 1)
  else if watch then (RunOutcome.watchForever, 1)
  else (RunOutcome.singlePass, 1)

/-! Structural lemmas about the classification pipeline. -/

/-- A produced result of `analyze_symbol` comes from the classification
body. -/
lemma analyze_symbol_some {symbol : String} {args : Args} {b s c : List Candle}
    {r : SymbolAnalysisResult}
    (h : analyze_symbol symbol args (some b) (some s) (some c) = some r) :
    analyze_core symbol args b s c = some r := by
  unfold analyze_symbol at h
  repeat' split at h
  all_goals simp_all

/-- A produced result of the classification body passed the spike check. -/
lemma analyze_core_some {symbol : String} {args : Args} {b s c : List Candle}
    {r : SymbolAnalysisResult}
    (h : analyze_core symbol args b s c = some r) :
    spike_check args b s = some true ∧ classify_dual symbol args b s c = some r := by
  unfold analyze_core at h
  split at h
  · exact Option.noConfusion h
  · exact Option.noConfusion h
  · exact ⟨by assumption, h⟩

/-- A passed spike check (with rejection enabled) means the relative
deviation of the short-window close mean from the big-window trimmed
median is strictly below the threshold. -/
lemma spike_check_pass {args : Args} {b s : List Candle}
    (h : spike_check args b s = some true) (hn : args.no_spikes = true) :
    trimmed_median (b.map (fun x => x.close)) 5 ≠ 0 ∧
    |(meanQ (s.map (fun x => x.close)) - trimmed_median (b.map (fun x => x.close)) 5) /
      trimmed_median (b.map (fun x => x.close)) 5| < args.spike_threshold / 100 := by
  simp only [spike_check, hn, if_true] at h
  split at h
  · exact Option.noConfusion h
  · refine ⟨by assumption, ?_⟩
    have := Option.some.inj h
    simpa using this

/-- A relative deviation at or above the threshold makes the
classification body drop the symbol. -/
lemma spike_check_not_pass {symbol : String} {args : Args} {b s c : List Candle}
    (hn : args.no_spikes = true)
    (hdev : ¬ |(meanQ (s.map (fun x => x.close)) - trimmed_median (b.map (fun x => x.close)) 5) /
      trimmed_median (b.map (fun x => x.close)) 5| < args.spike_threshold / 100) :
    analyze_core symbol args b s c = none := by
  unfold analyze_core
  by_cases htm : trimmed_median (b.map (fun x => x.close)) 5 = 0
  · simp [spike_check, hn, htm]
  · simp [spike_check, hn, htm, hdev]

set_option maxHeartbeats 2000000 in
/-- Characterization of the booster / loser / neutral decision: branch
conditions, reported change percentages, secondary change percentages and
reference prices of every produced result. -/
lemma classify_dual_spec {symbol : String} {args : Args} {b s c : List Candle}
    {r : SymbolAnalysisResult}
    (h : classify_dual symbol args b s c = some r) :
    (r.category = "booster" ∨ r.category = "loser" ∨ r.category = "neutral")
    ∧ (r.category = "booster" ↔
        (maxHighs c > calculate_avg_max s args.short_avg_frac ∧
         maxHighs c > calculate_avg_max b args.big_avg_frac))
    ∧ (r.category = "loser" ↔
        ((minLows c < calculate_avg_min s args.short_avg_frac ∧
          minLows c < calculate_avg_min b args.big_avg_frac) ∧
         ¬ (maxHighs c > calculate_avg_max s args.short_avg_frac ∧
            maxHighs c > calculate_avg_max b args.big_avg_frac)))
    ∧ (r.category = "booster" →
        r.change_percent =
          (maxHighs c - calculate_avg_max s args.short_avg_frac) /
            calculate_avg_max s args.short_avg_frac * 100
        ∧ r.change_percent_big_interval =
          (maxHighs c - calculate_avg_max b args.big_avg_frac) /
            calculate_avg_max b args.big_avg_frac * 100
        ∧ r.price = maxHighs c)
    ∧ (r.category = "loser" →
        r.change_percent =
          (minLows c - calculate_avg_min s args.short_avg_frac) /
            calculate_avg_min s args.short_avg_frac * 100
        ∧ r.change_percent_big_interval =
          (minLows c - calculate_avg_min b args.big_avg_frac) /
            calculate_avg_min b args.big_avg_frac * 100
        ∧ r.price = minLows c)
    ∧ (r.category = "neutral" →
        ((|(maxHighs c - calculate_avg_max s args.short_avg_frac) /
            calculate_avg_max s args.short_avg_frac * 100| ≥
          |(minLows c - calculate_avg_min s args.short_avg_frac) /
            calculate_avg_min s args.short_avg_frac * 100| →
            r.change_percent =
              (maxHighs c - calculate_avg_max s args.short_avg_frac) /
                calculate_avg_max s args.short_avg_frac * 100
            ∧ r.change_percent_big_interval =
              (maxHighs c - calculate_avg_max b args.big_avg_frac) /
                calculate_avg_max b args.big_avg_frac * 100
            ∧ r.price = maxHighs c)
        ∧ (|(maxHighs c - calculate_avg_max s args.short_avg_frac) /
              calculate_avg_max s args.short_avg_frac * 100| <
            |(minLows c - calculate_avg_min s args.short_avg_frac) /
              calculate_avg_min s args.short_avg_frac * 100| →
            r.change_percent =
              (minLows c - calculate_avg_min s args.short_avg_frac) /
                calculate_avg_min s args.short_avg_frac * 100
            ∧ r.change_percent_big_interval =
              (minLows c - calculate_avg_min b args.big_avg_frac) /
                calculate_avg_min b args.big_avg_frac * 100
            ∧ r.price = minLows c))) := by
  simp only [classify_dual] at h
  repeat' split at h
  all_goals first
    | exact Option.noConfusion h
    | (obtain rfl := Option.some.inj h
       simp_all only [Bool.and_eq_true, Bool.or_eq_true, decide_eq_true_eq,
         Bool.and_eq_false_iff, Bool.or_eq_false_iff, decide_eq_false_iff_not,
         not_and, not_lt, not_le]
       try simp
       try tauto
       try (first
         | refine ⟨by assumption, by assumption, fun hx => absurd hx (not_lt.mpr (by assumption))⟩
         | refine ⟨by assumption, by assumption, fun hx => absurd (by assumption) (not_lt.mpr hx)⟩))

/-- A duration string rejected by `parse_timeframe` makes both analyzers
drop the symbol: the `ValueError` is raised inside the per-symbol
`try/except`, not at configuration time. -/
lemma analyze_symbol_invalid_current {symbol : String} {args : Args}
    (bd sd cd : Option (List Candle))
    (h : parse_timeframe args.current_interval = none) :
    analyze_symbol symbol args bd sd cd = none
    ∧ analyze_symbol_simple symbol args cd = none := by
  have hgi : get_small_interval args.current_interval = none := by
    simp [get_small_interval, h]
  constructor
  · cases hb : get_small_interval args.big_interval <;>
      cases hs : get_small_interval args.short_interval <;>
        simp [analyze_symbol, hgi, hb, hs]
  · simp [analyze_symbol_simple, hgi]

/-- With spike rejection enabled, a relative deviation at or above the
threshold drops the symbol. -/
lemma analyze_symbol_spike_drop {symbol : String} {args : Args} {b s c : List Candle}
    (hn : args.no_spikes = true)
    (hdev : args.spike_threshold / 100 ≤
      |(meanQ (s.map (fun x => x.close)) - trimmed_median (b.map (fun x => x.close)) 5) /
        trimmed_median (b.map (fun x => x.close)) 5|) :
    analyze_symbol symbol args (some b) (some s) (some c) = none := by
  have hcore := @spike_check_not_pass symbol args b s c hn (not_lt.mpr hdev)
  unfold analyze_symbol
  repeat' split
  all_goals simp_all

set_option maxHeartbeats 1000000 in
/-- When the reference window of `analyze_symbol_simple` has fewer than 10
candles, every produced result compares the last close against the plain
maximum of highs and plain minimum of lows of the prior candles. -/
lemma analyze_symbol_simple_fallback {symbol : String} {args : Args}
    {l : List Candle} {r : SymbolAnalysisResult}
    (hr : analyze_symbol_simple symbol args (some l) = some r)
    (hlen : l.dropLast.length < 10) :
    (r.category = "booster" ↔ (l.getLastD ⟨0, 0, 0⟩).close > maxHighs l.dropLast)
    ∧ (r.category = "loser" ↔
        ((l.getLastD ⟨0, 0, 0⟩).close < minLows l.dropLast ∧
         ¬ (l.getLastD ⟨0, 0, 0⟩).close > maxHighs l.dropLast))
    ∧ (r.category = "booster" →
        r.change_percent =
          ((l.getLastD ⟨0, 0, 0⟩).close - maxHighs l.dropLast) / maxHighs l.dropLast * 100)
    ∧ (r.category = "loser" →
        r.change_percent =
          ((l.getLastD ⟨0, 0, 0⟩).close - minLows l.dropLast) / minLows l.dropLast * 100)
    ∧ (r.category = "neutral" →
        r.change_percent =
          ((l.getLastD ⟨0, 0, 0⟩).close - maxHighs l.dropLast) / maxHighs l.dropLast * 100)
    ∧ r.price = (l.getLastD ⟨0, 0, 0⟩).close := by
  have h10 : ¬ l.dropLast.length ≥ 10 := by omega
  simp only [analyze_symbol_simple, h10, if_false] at hr
  repeat' split at hr
  all_goals first
    | exact Option.noConfusion hr
    | (obtain rfl := Option.some.inj hr
       simp_all only [List.getLastD_eq_getLast?, Option.getD_some, not_lt, not_le]
       try simp
       try tauto)

/-- Taking `top_count` of a filled-up top list distributes over the fill. -/
lemma take_fill_take {α : Type} (b f : List α) (n : ℕ) :
    (if b.length < n then b ++ f.take (n - b.length) else b.take n).take n
      = b.take n ++ f.take (n - b.length) := by
  by_cases h : b.length < n
  · rw [if_pos h, List.take_append_eq_append_take, List.take_take, min_self]
  · have h0 : n - b.length = 0 := by omega
    rw [if_neg h, List.take_take, min_self, h0]
    simp

/-- Closed form of the per-pass ranking: sorted concatenation of the
booster selection (with its positive-neutral fill) and the loser selection
(with its negative-neutral fill). -/
lemma rank_select_eq (results : List SymbolAnalysisResult) (n : ℕ) :
    rank_select results n =
      sortResDesc
        (((sortResDesc (results.filter fun r => r.category == "booster")).take n
          ++ (sortResDesc ((results.filter fun r => r.category == "neutral").filter
                fun r => r.change_percent > 0)).take
              (n - (results.filter fun r => r.category == "booster").length))
         ++ ((sortResAsc (results.filter fun r => r.category == "loser")).take n
          ++ (sortResAsc ((results.filter fun r => r.category == "neutral").filter
                fun r => r.change_percent < 0)).take
              (n - (results.filter fun r => r.category == "loser").length))) := by
  unfold rank_select
  simp only []
  rw [take_fill_take, take_fill_take]
  simp only [sortResDesc, sortResAsc, List.length_insertionSort]

/-- C1 (amended): for a symbol whose three fetches succeed and that passes
spike rejection, the classification is booster iff the current maximum
exceeds both fractional max-averages; it is loser iff the current minimum
is below both fractional min-averages AND the booster condition fails
(the booster branch takes precedence); the primary change percent is
computed against the short window and the secondary against the big
window, for boosters from the max side and for losers from the min side. -/
theorem c1_booster_loser_classification (symbol : String) (args : Args)
    (b s c : List Candle) (r : SymbolAnalysisResult)
    (hr : analyze_symbol symbol args (some b) (some s) (some c) = some r) :
    (r.category = "booster" ↔
      (maxHighs c > calculate_avg_max s args.short_avg_frac ∧
       maxHighs c > calculate_avg_max b args.big_avg_frac))
    ∧ (r.category = "loser" ↔
        ((minLows c < calculate_avg_min s args.short_avg_frac ∧
          minLows c < calculate_avg_min b args.big_avg_frac) ∧
         ¬ (maxHighs c > calculate_avg_max s args.short_avg_frac ∧
            maxHighs c > calculate_avg_max b args.big_avg_frac)))
    ∧ (r.category = "booster" →
        r.change_percent =
          (maxHighs c - calculate_avg_max s args.short_avg_frac) /
            calculate_avg_max s args.short_avg_frac * 100
        ∧ r.change_percent_big_interval =
          (maxHighs c - calculate_avg_max b args.big_avg_frac) /
            calculate_avg_max b args.big_avg_frac * 100)
    ∧ (r.category = "loser" →
        r.change_percent =
          (minLows c - calculate_avg_min s args.short_avg_frac) /
            calculate_avg_min s args.short_avg_frac * 100
        ∧ r.change_percent_big_interval =
          (minLows c - calculate_avg_min b args.big_avg_frac) /
            calculate_avg_min b args.big_avg_frac * 100) := by
  have hspec := classify_dual_spec (analyze_core_some (analyze_symbol_some hr)).2
  exact ⟨hspec.2.1, hspec.2.2.1,
    fun hb => ⟨(hspec.2.2.2.1 hb).1, (hspec.2.2.2.1 hb).2.1⟩,
    fun hl => ⟨(hspec.2.2.2.2.1 hl).1, (hspec.2.2.2.2.1 hl).2.1⟩⟩

unseal Rat.add Rat.mul Rat.inv Rat.sub in
/-- C1 witness: `current_max = 110`, `short_max_avg = 100`,
`big_max_avg = 95` is classified booster with `change_percent = 10`. -/
theorem c1_booster_loser_classification_witness :
    (resBoost.category = "booster" ↔
      (maxHighs curBoost > calculate_avg_max shortBoost cfgPlain.short_avg_frac ∧
       maxHighs curBoost > calculate_avg_max bigBoost cfgPlain.big_avg_frac))
    ∧ (resBoost.category = "loser" ↔
        ((minLows curBoost < calculate_avg_min shortBoost cfgPlain.short_avg_frac ∧
          minLows curBoost < calculate_avg_min bigBoost cfgPlain.big_avg_frac) ∧
         ¬ (maxHighs curBoost > calculate_avg_max shortBoost cfgPlain.short_avg_frac ∧
            maxHighs curBoost > calculate_avg_max bigBoost cfgPlain.big_avg_frac)))
    ∧ (resBoost.category = "booster" →
        resBoost.change_percent =
          (maxHighs curBoost - calculate_avg_max shortBoost cfgPlain.short_avg_frac) /
            calculate_avg_max shortBoost cfgPlain.short_avg_frac * 100
        ∧ resBoost.change_percent_big_interval =
          (maxHighs curBoost - calculate_avg_max bigBoost cfgPlain.big_avg_frac) /
            calculate_avg_max bigBoost cfgPlain.big_avg_frac * 100)
    ∧ (resBoost.category = "loser" →
        resBoost.change_percent =
          (minLows curBoost - calculate_avg_min shortBoost cfgPlain.short_avg_frac) /
            calculate_avg_min shortBoost cfgPlain.short_avg_frac * 100
        ∧ resBoost.change_percent_big_interval =
          (minLows curBoost - calculate_avg_min bigBoost cfgPlain.big_avg_frac) /
            calculate_avg_min bigBoost cfgPlain.big_avg_frac * 100) :=
  c1_booster_loser_classification "X" cfgPlain bigBoost shortBoost curBoost resBoost
    (by decide)

unseal Rat.add Rat.mul Rat.inv Rat.sub in
/-- C1 counterexample: a wide current candle (high 200, low 10) satisfies
the booster condition and the loser condition at once; the code classifies
it booster, so "loser iff current_min below both min-averages" is false. -/
theorem c1_loser_iff_counterexample :
    analyze_symbol "X" cfgPlain (some bigOverlap) (some shortOverlap) (some curOverlap)
      = some resOverlap
    ∧ (minLows curOverlap < calculate_avg_min shortOverlap cfgPlain.short_avg_frac ∧
       minLows curOverlap < calculate_avg_min bigOverlap cfgPlain.big_avg_frac)
    ∧ resOverlap.category ≠ "loser" := by
  decide

/-- C9: when the booster condition and the loser condition hold
simultaneously, the ordered evaluation classifies the symbol booster. -/
theorem c9_booster_precedence (symbol : String) (args : Args)
    (b s c : List Candle) (r : SymbolAnalysisResult)
    (hr : analyze_symbol symbol args (some b) (some s) (some c) = some r)
    (hmax : maxHighs c > calculate_avg_max s args.short_avg_frac ∧
            maxHighs c > calculate_avg_max b args.big_avg_frac)
    (hmin : minLows c < calculate_avg_min s args.short_avg_frac ∧
            minLows c < calculate_avg_min b args.big_avg_frac) :
    r.category = "booster" ∧ r.category ≠ "loser" ∧ r.category ≠ "neutral" := by
  have hspec := classify_dual_spec (analyze_core_some (analyze_symbol_some hr)).2
  have hb := hspec.2.1.mpr hmax
  refine ⟨hb, ?_, ?_⟩ <;> rw [hb] <;> decide

unseal Rat.add Rat.mul Rat.inv Rat.sub in
/-- C9 witness: the overlap example is classified booster although its
current minimum 10 lies below both min-averages. -/
theorem c9_booster_precedence_witness :
    resOverlap.category = "booster" ∧ resOverlap.category ≠ "loser" ∧
      resOverlap.category ≠ "neutral" :=
  c9_booster_precedence "X" cfgPlain bigOverlap shortOverlap curOverlap resOverlap
    (by decide) (by decide) (by decide)

/-- C4: when the booster condition and the loser condition each disagree
between the short and the big window the category is neutral; a neutral
result reports whichever of the short-window up-move and down-move has the
larger absolute magnitude (ties favouring the up-move), and mirrors that
choice for the secondary percentage against the big window. -/
theorem c4_mixed_agreement_neutral (symbol : String) (args : Args)
    (b s c : List Candle) (r : SymbolAnalysisResult)
    (hr : analyze_symbol symbol args (some b) (some s) (some c) = some r) :
    ((¬ ((maxHighs c > calculate_avg_max s args.short_avg_frac) ↔
         (maxHighs c > calculate_avg_max b args.big_avg_frac))) →
     (¬ ((minLows c < calculate_avg_min s args.short_avg_frac) ↔
         (minLows c < calculate_avg_min b args.big_avg_frac))) →
     r.category = "neutral")
    ∧ (r.category = "neutral" →
        ((|(maxHighs c - calculate_avg_max s args.short_avg_frac) /
            calculate_avg_max s args.short_avg_frac * 100| ≥
          |(minLows c - calculate_avg_min s args.short_avg_frac) /
            calculate_avg_min s args.short_avg_frac * 100| →
            r.change_percent =
              (maxHighs c - calculate_avg_max s args.short_avg_frac) /
                calculate_avg_max s args.short_avg_frac * 100
            ∧ r.change_percent_big_interval =
              (maxHighs c - calculate_avg_max b args.big_avg_frac) /
                calculate_avg_max b args.big_avg_frac * 100)
        ∧ (|(maxHighs c - calculate_avg_max s args.short_avg_frac) /
              calculate_avg_max s args.short_avg_frac * 100| <
            |(minLows c - calculate_avg_min s args.short_avg_frac) /
              calculate_avg_min s args.short_avg_frac * 100| →
            r.change_percent =
              (minLows c - calculate_avg_min s args.short_avg_frac) /
                calculate_avg_min s args.short_avg_frac * 100
            ∧ r.change_percent_big_interval =
              (minLows c - calculate_avg_min b args.big_avg_frac) /
                calculate_avg_min b args.big_avg_frac * 100))) := by
  have hspec := classify_dual_spec (analyze_core_some (analyze_symbol_some hr)).2
  constructor
  · intro hdm hdn
    rcases hspec.1 with hb | hl | hn
    · obtain ⟨hA, hB⟩ := hspec.2.1.mp hb
      exact absurd (iff_of_true hA hB) hdm
    · obtain ⟨⟨hC, hD⟩, _⟩ := hspec.2.2.1.mp hl
      exact absurd (iff_of_true hC hD) hdn
    · exact hn
  · intro hn
    have hvals := hspec.2.2.2.2.2 hn
    exact ⟨fun hge => ⟨(hvals.1 hge).1, (hvals.1 hge).2.1⟩,
      fun hlt => ⟨(hvals.2 hlt).1, (hvals.2 hlt).2.1⟩⟩

unseal Rat.add Rat.mul Rat.inv Rat.sub in
/-- C4 witness: `current_min = 90`, `short_min_avg = 95`, `big_min_avg =
80` (and `current_max = 90` against `short_max_avg = 100`, `big_max_avg =
85`): both conditions are mixed, the result is neutral and reports the
up-move `-10`, whose magnitude beats the down-move `-100/19`. -/
theorem c4_mixed_agreement_neutral_witness :
    ((¬ ((maxHighs curMixed > calculate_avg_max shortMixed cfgPlain.short_avg_frac) ↔
         (maxHighs curMixed > calculate_avg_max bigMixed cfgPlain.big_avg_frac))) →
     (¬ ((minLows curMixed < calculate_avg_min shortMixed cfgPlain.short_avg_frac) ↔
         (minLows curMixed < calculate_avg_min bigMixed cfgPlain.big_avg_frac))) →
     resMixed.category = "neutral")
    ∧ (resMixed.category = "neutral" →
        ((|(maxHighs curMixed - calculate_avg_max shortMixed cfgPlain.short_avg_frac) /
            calculate_avg_max shortMixed cfgPlain.short_avg_frac * 100| ≥
          |(minLows curMixed - calculate_avg_min shortMixed cfgPlain.short_avg_frac) /
            calculate_avg_min shortMixed cfgPlain.short_avg_frac * 100| →
            resMixed.change_percent =
              (maxHighs curMixed - calculate_avg_max shortMixed cfgPlain.short_avg_frac) /
                calculate_avg_max shortMixed cfgPlain.short_avg_frac * 100
            ∧ resMixed.change_percent_big_interval =
              (maxHighs curMixed - calculate_avg_max bigMixed cfgPlain.big_avg_frac) /
                calculate_avg_max bigMixed cfgPlain.big_avg_frac * 100)
        ∧ (|(maxHighs curMixed - calculate_avg_max shortMixed cfgPlain.short_avg_frac) /
              calculate_avg_max shortMixed cfgPlain.short_avg_frac * 100| <
            |(minLows curMixed - calculate_avg_min shortMixed cfgPlain.short_avg_frac) /
              calculate_avg_min shortMixed cfgPlain.short_avg_frac * 100| →
            resMixed.change_percent =
              (minLows curMixed - calculate_avg_min shortMixed cfgPlain.short_avg_frac) /
                calculate_avg_min shortMixed cfgPlain.short_avg_frac * 100
            ∧ resMixed.change_percent_big_interval =
              (minLows curMixed - calculate_avg_min bigMixed cfgPlain.big_avg_frac) /
                calculate_avg_min bigMixed cfgPlain.big_avg_frac * 100))) :=
  c4_mixed_agreement_neutral "X" cfgPlain bigMixed shortMixed curMixed resMixed
    (by decide)

/-- C2: the per-pass selection has at most `2 * top_count` entries; it is
a permutation of the top-N boosters (descending by change percent, filled
from strictly positive neutrals) together with the top-N losers
(ascending, filled from strictly negative neutrals); and every neutral in
the output is such a filler for an undersized category. -/
theorem c2_rank_selection (results : List SymbolAnalysisResult) (top_count : ℕ) :
    (rank_select results top_count).length ≤ 2 * top_count
    ∧ (rank_select results top_count).Perm
        (((sortResDesc (results.filter fun r => r.category == "booster")).take top_count
          ++ (sortResDesc ((results.filter fun r => r.category == "neutral").filter
                fun r => r.change_percent > 0)).take
              (top_count - (results.filter fun r => r.category == "booster").length))
         ++ ((sortResAsc (results.filter fun r => r.category == "loser")).take top_count
          ++ (sortResAsc ((results.filter fun r => r.category == "neutral").filter
                fun r => r.change_percent < 0)).take
              (top_count - (results.filter fun r => r.category == "loser").length)))
    ∧ ∀ r ∈ rank_select results top_count, r.category = "neutral" →
        (0 < r.change_percent ∧
          (results.filter fun r => r.category == "booster").length < top_count)
        ∨ (r.change_percent < 0 ∧
          (results.filter fun r => r.category == "loser").length < top_count) := by
  have hperm :
      (rank_select results top_count).Perm
        (((sortResDesc (results.filter fun r => r.category == "booster")).take top_count
          ++ (sortResDesc ((results.filter fun r => r.category == "neutral").filter
                fun r => r.change_percent > 0)).take
              (top_count - (results.filter fun r => r.category == "booster").length))
         ++ ((sortResAsc (results.filter fun r => r.category == "loser")).take top_count
          ++ (sortResAsc ((results.filter fun r => r.category == "neutral").filter
                fun r => r.change_percent < 0)).take
              (top_count - (results.filter fun r => r.category == "loser").length))) := by
    rw [rank_select_eq]
    exact List.perm_insertionSort _ _
  refine ⟨?_, hperm, ?_⟩
  · rw [hperm.length_eq]
    simp only [List.length_append, List.length_take, List.length_insertionSort, sortResDesc,
      sortResAsc]
    omega
  · intro r hr hcat
    have hmem := hperm.mem_iff.mp hr
    rcases List.mem_append.mp hmem with hb | hl
    · rcases List.mem_append.mp hb with hb1 | hb2
      · exfalso
        have := List.mem_filter.mp ((List.mem_insertionSort _).mp (List.mem_of_mem_take hb1))
        rw [hcat] at this
        exact absurd this.2 (by decide)
      · left
        have hmemf := List.mem_filter.mp ((List.mem_insertionSort _).mp (List.mem_of_mem_take hb2))
        have hpos : 0 < r.change_percent := by simpa using hmemf.2
        have hne : top_count - (results.filter fun r => r.category == "booster").length ≠ 0 := by
          intro h0
          rw [h0] at hb2
          simp at hb2
        exact ⟨hpos, by omega⟩
    · rcases List.mem_append.mp hl with hl1 | hl2
      · exfalso
        have := List.mem_filter.mp ((List.mem_insertionSort _).mp (List.mem_of_mem_take hl1))
        rw [hcat] at this
        exact absurd this.2 (by decide)
      · right
        have hmemf := List.mem_filter.mp ((List.mem_insertionSort _).mp (List.mem_of_mem_take hl2))
        have hneg : r.change_percent < 0 := by simpa using hmemf.2
        have hne : top_count - (results.filter fun r => r.category == "loser").length ≠ 0 := by
          intro h0
          rw [h0] at hl2
          simp at hl2
        exact ⟨hneg, by omega⟩

/-- C3: a parsed duration of `m` minutes resolves to base resolution 1m
when `m ≤ 60`, 15m when `m ≤ 240`, 1h when `m ≤ 1440` and 4h beyond; the
candle count for the chosen resolution is `max (m / resolution + 1) 1`,
which is at least 1, and the resolution coarsens monotonically in `m`. -/
theorem c3_interval_resolution (d : String) (m : ℕ)
    (h : parse_timeframe d = some m) :
    (m ≤ 60 → get_small_interval d = some "1m")
    ∧ (60 < m → m ≤ 240 → get_small_interval d = some "15m")
    ∧ (240 < m → m ≤ 1440 → get_small_interval d = some "1h")
    ∧ (1440 < m → get_small_interval d = some "4h")
    ∧ (∀ i, get_small_interval d = some i →
        parse_timeframe i = some (resolution_minutes m)
        ∧ calculate_required_candles d i =
            some (max (m / resolution_minutes m + 1) 1))
    ∧ 1 ≤ max (m / resolution_minutes m + 1) 1
    ∧ (∀ m₂, m ≤ m₂ → resolution_minutes m ≤ resolution_minutes m₂) := by
  have hg : get_small_interval d =
      some (if m ≤ 60 then "1m" else if m ≤ 240 then "15m"
            else if m ≤ 1440 then "1h" else "4h") := by
    simp [get_small_interval, h]
  refine ⟨?_, ?_, ?_, ?_, ?_, ?_, ?_⟩
  · intro hm
    rw [hg, if_pos hm]
  · intro hm1 hm2
    rw [hg, if_neg (by omega), if_pos hm2]
  · intro hm1 hm2
    rw [hg, if_neg (by omega), if_neg (by omega), if_pos hm2]
  · intro hm
    rw [hg, if_neg (by omega), if_neg (by omega), if_neg (by omega)]
  · intro i hi
    rw [hg] at hi
    obtain rfl := Option.some.inj hi
    unfold resolution_minutes
    by_cases h60 : m ≤ 60
    · simp only [if_pos h60]
      refine ⟨by decide, ?_⟩
      unfold calculate_required_candles
      rw [h, (by decide : parse_timeframe "1m" = some 1)]
      simp
    · by_cases h240 : m ≤ 240
      · simp only [if_neg h60, if_pos h240]
        refine ⟨by decide, ?_⟩
        unfold calculate_required_candles
        rw [h, (by decide : parse_timeframe "15m" = some 15)]
        simp
      · by_cases h1440 : m ≤ 1440
        · simp only [if_neg h60, if_neg h240, if_pos h1440]
          refine ⟨by decide, ?_⟩
          unfold calculate_required_candles
          rw [h, (by decide : parse_timeframe "1h" = some 60)]
          simp
        · simp only [if_neg h60, if_neg h240, if_neg h1440]
          refine ⟨by decide, ?_⟩
          unfold calculate_required_candles
          rw [h, (by decide : parse_timeframe "4h" = some 240)]
          simp
  · exact Nat.le_max_right _ _
  · intro m₂ hle
    unfold resolution_minutes
    split_ifs <;> omega

/-- C3 witness: the two-hour duration parses to 120 minutes, resolves to
15-minute candles and requests `max (120 / 15 + 1) 1 = 9` of them; growing
the duration to 1500 minutes coarsens the resolution. -/
theorem c3_interval_resolution_witness :
    get_small_interval "2h" = some "15m"
    ∧ parse_timeframe "15m" = some (resolution_minutes 120)
    ∧ calculate_required_candles "2h" "15m" =
        some (max (120 / resolution_minutes 120 + 1) 1)
    ∧ 1 ≤ max (120 / resolution_minutes 120 + 1) 1
    ∧ resolution_minutes 120 ≤ resolution_minutes 1500 := by
  have h := c3_interval_resolution "2h" 120 (by decide)
  have hb := h.2.1 (by omega) (by omega)
  exact ⟨hb, (h.2.2.2.2.1 "15m" hb).1, (h.2.2.2.2.1 "15m" hb).2,
    h.2.2.2.2.2.1, h.2.2.2.2.2.2 1500 (by omega)⟩

unseal Rat.add Rat.mul Rat.inv Rat.sub in
/-- C5 counterexample: with threshold 5, a deviation of exactly 5% (mean
105 against trimmed median 100) does not exceed the threshold, yet the
symbol is dropped: the survival test is the strict `< threshold/100`. -/
theorem c5_boundary_counterexample :
    analyze_symbol "X" cfgSpike (some bigSpike) (some shortSpike5) (some curBoost) = none
    ∧ ¬ (|(meanQ (shortSpike5.map fun x => x.close) -
            trimmed_median (bigSpike.map fun x => x.close) 5) /
          trimmed_median (bigSpike.map fun x => x.close) 5| >
          cfgSpike.spike_threshold / 100) := by
  decide

/-- C5 (amended): with spike rejection enabled, a relative deviation of at
least `spike_threshold / 100` between the short-window close mean and the
big-window trimmed median drops the symbol, and every symbol that produces
a result had a deviation strictly below that bound. -/
theorem c5_spike_rejection (symbol : String) (args : Args) (b s c : List Candle)
    (hn : args.no_spikes = true) :
    (args.spike_threshold / 100 ≤
        |(meanQ (s.map fun x => x.close) - trimmed_median (b.map fun x => x.close) 5) /
          trimmed_median (b.map fun x => x.close) 5| →
      analyze_symbol symbol args (some b) (some s) (some c) = none)
    ∧ (∀ r, analyze_symbol symbol args (some b) (some s) (some c) = some r →
        |(meanQ (s.map fun x => x.close) - trimmed_median (b.map fun x => x.close) 5) /
          trimmed_median (b.map fun x => x.close) 5| < args.spike_threshold / 100) := by
  constructor
  · intro hdev
    exact analyze_symbol_spike_drop hn hdev
  · intro r hr
    exact (spike_check_pass (analyze_core_some (analyze_symbol_some hr)).1 hn).2

unseal Rat.add Rat.mul Rat.inv Rat.sub in
/-- C5 witness: trimmed median 100, short-window mean 106, threshold 5 —
the 6% deviation reaches the bound, so the implication drops the symbol. -/
theorem c5_spike_rejection_witness :
    (cfgSpike.spike_threshold / 100 ≤
        |(meanQ (shortSpike6.map fun x => x.close) -
            trimmed_median (bigSpike.map fun x => x.close) 5) /
          trimmed_median (bigSpike.map fun x => x.close) 5| →
      analyze_symbol "X" cfgSpike (some bigSpike) (some shortSpike6) (some curBoost) = none)
    ∧ (∀ r, analyze_symbol "X" cfgSpike (some bigSpike) (some shortSpike6) (some curBoost)
          = some r →
        |(meanQ (shortSpike6.map fun x => x.close) -
            trimmed_median (bigSpike.map fun x => x.close) 5) /
          trimmed_median (bigSpike.map fun x => x.close) 5| <
          cfgSpike.spike_threshold / 100) :=
  c5_spike_rejection "X" cfgSpike bigSpike shortSpike6 curBoost (by decide)

unseal Rat.add Rat.mul Rat.inv Rat.sub in
/-- C6 counterexample: the malformed duration `"xx"` is accepted by the
configuration step (stored verbatim, no failure), and during the pass a
symbol whose fetches all succeed is silently dropped. -/
theorem c6_lazy_validation_counterexample :
    parse_timeframe "xx" = none
    ∧ cfgBadDuration.current_interval = "xx"
    ∧ analyze_symbol "S" cfgBadDuration
        (some goodWindow) (some goodWindow) (some goodWindow) = none
    ∧ analyze_symbol_simple "S" cfgBadDuration (some goodWindow) = none := by
  decide

/-- C6 (amended): a duration string rejected by the grammar is not
detected at configuration time; instead `parse_timeframe` raises inside
each per-symbol analysis, the exception is caught, and the symbol is
silently dropped from the pass — in dual-window and simple mode alike. -/
theorem c6_invalid_duration_drops_symbols (symbol : String) (args : Args)
    (bd sd cd : Option (List Candle))
    (h : parse_timeframe args.current_interval = none) :
    analyze_symbol symbol args bd sd cd = none
    ∧ analyze_symbol_simple symbol args cd = none :=
  analyze_symbol_invalid_current bd sd cd h

/-- C6 witness: with current interval `"xx"` every symbol is dropped. -/
theorem c6_invalid_duration_drops_symbols_witness :
    analyze_symbol "S" cfgBadDuration
      (some goodWindow) (some goodWindow) (some goodWindow) = none
    ∧ analyze_symbol_simple "S" cfgBadDuration (some goodWindow) = none :=
  c6_invalid_duration_drops_symbols "S" cfgBadDuration
    (some goodWindow) (some goodWindow) (some goodWindow) (by decide)

/-- C7 counterexample: with an empty universe listing and watch mode on,
`main` neither keeps running nor consumes a second listing: it returns
after the single listing, so the loop never sleeps and never retries. -/
theorem c7_empty_universe_counterexample :
    main_control (fun _ => ([] : List String)) true = (RunOutcome.noSymbolsExit, 1)
    ∧ (main_control (fun _ => ([] : List String)) true).1 ≠ RunOutcome.watchForever
    ∧ ¬ 2 ≤ (main_control (fun _ => ([] : List String)) true).2 := by
  decide

/-- C7 (amended): an empty universe listing terminates the run
immediately with the "nothing to show" message, in watch mode as well; the
universe is listed exactly once per run and never re-fetched. -/
theorem c7_empty_universe_exits (listings : ℕ → List String) (watch : Bool)
    (h : listings 0 = []) :
    main_control listings watch = (RunOutcome.noSymbolsExit, 1) := by
  simp [main_control, h]

/-- C7 witness: the single-pass variant exits the same way. -/
theorem c7_empty_universe_exits_witness :
    main_control (fun _ => ([] : List String)) false = (RunOutcome.noSymbolsExit, 1) :=
  c7_empty_universe_exits (fun _ => []) false rfl

unseal Rat.add Rat.mul Rat.inv Rat.sub in
/-- C8 counterexample: in dual-window mode a four-candle short window
(length below 10) is not reduced to its plain maximum 100; the booster
change percent is computed from the 0.5-fraction average 95, so it differs
from the value the claimed fallback would give. -/
theorem c8_dual_window_no_fallback_counterexample :
    shortFrac.length < 10
    ∧ analyze_symbol "X" cfgPlain (some bigFrac) (some shortFrac) (some curFrac)
        = some resFrac
    ∧ calculate_avg_max shortFrac cfgPlain.short_avg_frac ≠ maxHighs shortFrac
    ∧ resFrac.change_percent ≠
        (maxHighs curFrac - maxHighs shortFrac) / maxHighs shortFrac * 100 := by
  decide

/-- C8 (amended): the below-10 fallback to plain extrema exists only in
simple mode: a reference window of fewer than 10 candles is classified
against the plain maximum of its highs and plain minimum of its lows. -/
theorem c8_simple_mode_fallback (symbol : String) (args : Args)
    (l : List Candle) (r : SymbolAnalysisResult)
    (hr : analyze_symbol_simple symbol args (some l) = some r)
    (hlen : l.dropLast.length < 10) :
    (r.category = "booster" ↔ (l.getLastD ⟨0, 0, 0⟩).close > maxHighs l.dropLast)
    ∧ (r.category = "loser" ↔
        ((l.getLastD ⟨0, 0, 0⟩).close < minLows l.dropLast ∧
         ¬ (l.getLastD ⟨0, 0, 0⟩).close > maxHighs l.dropLast))
    ∧ (r.category = "booster" →
        r.change_percent =
          ((l.getLastD ⟨0, 0, 0⟩).close - maxHighs l.dropLast) / maxHighs l.dropLast * 100)
    ∧ (r.category = "loser" →
        r.change_percent =
          ((l.getLastD ⟨0, 0, 0⟩).close - minLows l.dropLast) / minLows l.dropLast * 100)
    ∧ (r.category = "neutral" →
        r.change_percent =
          ((l.getLastD ⟨0, 0, 0⟩).close - maxHighs l.dropLast) / maxHighs l.dropLast * 100)
    ∧ r.price = (l.getLastD ⟨0, 0, 0⟩).close :=
  analyze_symbol_simple_fallback hr hlen

unseal Rat.add Rat.mul Rat.inv Rat.sub in
/-- C8 witness: a three-candle simple-mode window (prior length 2) is
classified against the plain extrema 105 and 90 of the prior candles. -/
theorem c8_simple_mode_fallback_witness :
    (resSimple.category = "booster" ↔
      (simpleWin.getLastD ⟨0, 0, 0⟩).close > maxHighs simpleWin.dropLast)
    ∧ (resSimple.category = "loser" ↔
        ((simpleWin.getLastD ⟨0, 0, 0⟩).close < minLows simpleWin.dropLast ∧
         ¬ (simpleWin.getLastD ⟨0, 0, 0⟩).close > maxHighs simpleWin.dropLast))
    ∧ (resSimple.category = "booster" →
        resSimple.change_percent =
          ((simpleWin.getLastD ⟨0, 0, 0⟩).close - maxHighs simpleWin.dropLast) /
            maxHighs simpleWin.dropLast * 100)
    ∧ (resSimple.category = "loser" →
        resSimple.change_percent =
          ((simpleWin.getLastD ⟨0, 0, 0⟩).close - minLows simpleWin.dropLast) /
            minLows simpleWin.dropLast * 100)
    ∧ (resSimple.category = "neutral" →
        resSimple.change_percent =
          ((simpleWin.getLastD ⟨0, 0, 0⟩).close - maxHighs simpleWin.dropLast) /
            maxHighs simpleWin.dropLast * 100)
    ∧ resSimple.price = (simpleWin.getLastD ⟨0, 0, 0⟩).close :=
  c8_simple_mode_fallback "X" cfgPlain simpleWin resSimple (by decide) (by decide)

unseal Rat.add Rat.mul Rat.inv Rat.sub in
/-- C10 counterexample: for `"%5"` the content after stripping a trailing
percent sign is `"%5"`, which `float()` rejects, yet `parse_percentage`
returns 5 (the code strips the percent sign from both ends), not the
fallback 2. -/
theorem c10_strip_counterexample :
    pyFloat (stripTrailingChar '%' "%5".data) = none
    ∧ parse_percentage "%5" = 5
    ∧ parse_percentage "%5" ≠ 2 := by
  decide

/-- C10 (amended): when the content after stripping leading AND trailing
percent signs is not parseable as a float, configuration does not fail:
`parse_percentage` returns the fallback 2 (not the CLI default 5) and the
configured scan threshold is that fallback. -/
theorem c10_percentage_fallback (pct : String)
    (h : pyFloat (stripChar '%' pct.data) = none) :
    parse_percentage pct = 2
    ∧ ∀ cur short_arg big_arg simple watch ns count,
        (build_config cur short_arg big_arg simple watch ns pct count).spike_threshold
          = 2 := by
  constructor
  · simp [parse_percentage, h]
  · intro cur short_arg big_arg simple watch ns count
    simp [build_config, parse_percentage, h]

unseal Rat.add Rat.mul Rat.inv Rat.sub in
/-- C10 witness: the unparseable threshold string `"abc"` yields the
fallback 2 and a scan configured with threshold 2. -/
theorem c10_percentage_fallback_witness :
    parse_percentage "abc" = 2
    ∧ (build_config "8h" none none false false false "abc" 5).spike_threshold = 2 :=
  ⟨(c10_percentage_fallback "abc" (by decide)).1,
   (c10_percentage_fallback "abc" (by decide)).2 "8h" none none false false false 5⟩

end HotCold
